import Mathlib

/-!
Shallow embedding of the projection engines of the etf-drip-calculator
repository, over exact real arithmetic (JS `number` values are modelled
by `ℝ`; `Math.pow(x, n)` with a natural exponent is `x ^ n` and
`Math.pow(x, 0.5)` is `Real.sqrt x`, which agrees with JS for the
non-negative bases the engine produces; `Math.max(0, x)` is `max 0 x`).

Two engines are embedded:
* `DripCalc.calculateDRIP` from `src/components/DripCalculator.tsx`
  (share-count tracking, mid-year geometric reinvestment price), together
  with its validation predicate `inputsAreValid` and the numeric guard of
  `handleInputChange`;
* `PageCalc.calculateResults` from `src/app/page.tsx` (raw-value
  tracking with an `enableDRIP` toggle), including JS `Math.round`
  (`jsRound`) on the reported fields.
-/

noncomputable section

namespace DripCalc

/-- Input record of `calculateDRIP` (`CalculationInputs` in
`src/components/DripCalculator.tsx`). Rate fields are in percent, as in
the source. `investmentPeriod` is the loop bound `year < investmentPeriod`
of the source, a natural number. -/
structure CalculationInputs where
  initialInvestment : ℝ
  currentSharePrice : ℝ
  sharePriceGrowth : ℝ
  dividendYield : ℝ
  dividendGrowth : ℝ
  dividendTaxRate : ℝ
  expenseRatio : ℝ
  extraContributions : ℝ
  contributionFrequency : ℝ
  investmentPeriod : ℕ
  startingYear : ℤ

/-- One row of the output table (`YearlyResult` in
`src/components/DripCalculator.tsx`). -/
structure YearlyResult where
  year : ℤ
  yearNumber : ℕ
  openingNAV : ℝ
  grossDividends : ℝ
  feesPaid : ℝ
  netDividends : ℝ
  dividendTaxPaid : ℝ
  extraContributions : ℝ
  sharesPurchasedFromCash : ℝ
  totalShares : ℝ
  sharePrice : ℝ
  closingNAV : ℝ
  postTaxNAV : ℝ
  annualReturn : ℝ
  cumulativeReturn : ℝ

/-- The body of the `for` loop of `calculateDRIP`
(`src/components/DripCalculator.tsx`, lines 97-183) for loop index
`year`, given the mutable state entering the iteration
(`currentShares`, `previousNAV`). Steps are numbered as in the source. -/
def dripStep (inputs : CalculationInputs) (year : ℕ)
    (currentShares previousNAV : ℝ) : YearlyResult :=
  let actualYear : ℤ := inputs.startingYear + year
  let yearNumber := year + 1
  -- 1. start-of-year share price
  let startPrice :=
    if year = 0 then inputs.currentSharePrice
    else inputs.currentSharePrice * (1 + inputs.sharePriceGrowth / 100) ^ year
  -- 2. opening NAV
  let openingNAV := currentShares * startPrice
  -- 3. gross dividends for the year
  let currentDividendYield :=
    (inputs.dividendYield / 100) * (1 + inputs.dividendGrowth / 100) ^ year
  let grossDividends := openingNAV * currentDividendYield
  -- 4. dividend tax
  let dividendTaxPaid := grossDividends * (inputs.dividendTaxRate / 100)
  -- 5. fees on AUM
  let feesPaid := openingNAV * (inputs.expenseRatio / 100)
  -- 6. net dividends available to reinvest
  let netDividends := max 0 (grossDividends - dividendTaxPaid)
  -- 7. extra contributions for the year
  let yearlyExtraContributions :=
    inputs.extraContributions * inputs.contributionFrequency
  -- 8. mid-year reinvest price (Math.pow(1 + g/100, 0.5) = sqrt)
  let midYearPrice := startPrice * Real.sqrt (1 + inputs.sharePriceGrowth / 100)
  -- 9. shares bought with net dividends + contributions
  let cashToReinvest := netDividends + yearlyExtraContributions
  let sharesPurchasedFromCash :=
    if midYearPrice > 0 then cashToReinvest / midYearPrice else 0
  let newShares := currentShares + sharesPurchasedFromCash
  -- 10. end-of-year share price
  let endPrice :=
    inputs.currentSharePrice * (1 + inputs.sharePriceGrowth / 100) ^ (year + 1)
  -- 11. NAV before fees at year-end
  let closingNAVBeforeFees := newShares * endPrice
  -- 12. subtract fees at year-end
  let closingNAV := closingNAVBeforeFees - feesPaid
  -- 13. post-tax NAV
  let postTaxNAV := max 0 closingNAV
  -- 14. annual and cumulative returns
  let annualReturn :=
    if year = 0 then
      ((postTaxNAV - inputs.initialInvestment) / inputs.initialInvestment) * 100
    else ((postTaxNAV - previousNAV) / previousNAV) * 100
  let cumulativeReturn :=
    ((postTaxNAV - inputs.initialInvestment) / inputs.initialInvestment) * 100
  { year := actualYear
    yearNumber := yearNumber
    openingNAV := openingNAV
    grossDividends := grossDividends
    feesPaid := feesPaid
    netDividends := netDividends
    dividendTaxPaid := dividendTaxPaid
    extraContributions := yearlyExtraContributions
    sharesPurchasedFromCash := sharesPurchasedFromCash
    totalShares := newShares
    sharePrice := endPrice
    closingNAV := closingNAVBeforeFees
    postTaxNAV := postTaxNAV
    annualReturn := annualReturn
    cumulativeReturn := cumulativeReturn }

/-- The `for` loop of `calculateDRIP`, as a recursion on the number of
remaining iterations. `year` is the loop index, and the two `ℝ`
arguments are the mutable variables `currentShares` and `previousNAV`:
after each iteration `currentShares` is the row's `totalShares` and
`previousNAV` the row's `postTaxNAV` (source line 182). -/
def dripLoop (inputs : CalculationInputs) (fuel year : ℕ)
    (currentShares previousNAV : ℝ) : List YearlyResult :=
  match fuel with
  | 0 => []
  | fuel + 1 =>
    let r := dripStep inputs year currentShares previousNAV
    r :: dripLoop inputs fuel (year + 1) r.totalShares r.postTaxNAV

/-- `calculateDRIP` (`src/components/DripCalculator.tsx`, lines 92-186):
initial shares are `initialInvestment / currentSharePrice`, initial
`previousNAV` is `initialInvestment`. -/
def calculateDRIP (inputs : CalculationInputs) : List YearlyResult :=
  dripLoop inputs inputs.investmentPeriod 0
    (inputs.initialInvestment / inputs.currentSharePrice)
    inputs.initialInvestment

/-- `inputsAreValid` (`src/components/DripCalculator.tsx`, lines
236-248), the boolean conjunction of comparisons, as a proposition. -/
def inputsAreValid (inputs : CalculationInputs) : Prop :=
  inputs.initialInvestment > 0 ∧
  inputs.currentSharePrice > 0 ∧
  inputs.investmentPeriod > 0 ∧
  inputs.sharePriceGrowth ≥ 0 ∧
  inputs.dividendYield ≥ 0 ∧
  inputs.dividendGrowth ≥ 0 ∧
  inputs.expenseRatio ≥ 0 ∧
  inputs.dividendTaxRate ≥ 0 ∧
  inputs.extraContributions ≥ 0

/-- The numeric guard of `handleInputChange`
(`src/components/DripCalculator.tsx`, lines 227-233): a parsed value
that is negative (or NaN, outside this real-number model) is replaced
by `0` before being stored. -/
def handleInputChangeValue (numValue : ℝ) : ℝ :=
  if numValue < 0 then 0 else numValue

theorem length_dripLoop (inputs : CalculationInputs) :
    ∀ (fuel year : ℕ) (s p : ℝ),
      (dripLoop inputs fuel year s p).length = fuel := by
  intro fuel
  induction fuel with
  | zero => intro year s p; rfl
  | succ n ih => intro year s p; simp [dripLoop, ih]

theorem length_calculateDRIP (inputs : CalculationInputs) :
    (calculateDRIP inputs).length = inputs.investmentPeriod := by
  simp [calculateDRIP, length_dripLoop]

/-- Every element of `dripLoop` is a `dripStep` at loop index
`year + i`, where `i` is its position in the list. -/
theorem get_dripLoop (inputs : CalculationInputs) :
    ∀ (fuel year : ℕ) (s p : ℝ) (i : ℕ) (h : i < fuel),
      ∃ s' p', (dripLoop inputs fuel year s p).get
          ⟨i, by rw [length_dripLoop]; exact h⟩ =
        dripStep inputs (year + i) s' p' := by
  intro fuel
  induction fuel with
  | zero => intro year s p i h; omega
  | succ n ih =>
    intro year s p i h
    match i with
    | 0 => exact ⟨s, p, rfl⟩
    | j + 1 =>
      obtain ⟨s', p', hs⟩ := ih (year + 1)
        (dripStep inputs year s p).totalShares
        (dripStep inputs year s p).postTaxNAV j (by omega)
      refine ⟨s', p', ?_⟩
      simpa [dripLoop, Nat.add_assoc, Nat.add_comm 1 j] using hs

/-- The first row, when there is one, is the step at the initial state. -/
theorem head_dripLoop (inputs : CalculationInputs) (fuel year : ℕ) (s p : ℝ)
    (h : 0 < fuel) :
    (dripLoop inputs fuel year s p).get
        ⟨0, by rw [length_dripLoop]; exact h⟩ =
      dripStep inputs year s p := by
  match fuel with
  | 0 => omega
  | n + 1 => rfl

theorem dripStep_yearNumber (inputs : CalculationInputs) (year : ℕ)
    (s p : ℝ) : (dripStep inputs year s p).yearNumber = year + 1 := rfl

theorem dripStep_grossDividends (inputs : CalculationInputs) (year : ℕ)
    (s p : ℝ) :
    (dripStep inputs year s p).grossDividends =
      (dripStep inputs year s p).openingNAV *
        ((inputs.dividendYield / 100) *
          (1 + inputs.dividendGrowth / 100) ^ year) := rfl

/-- The stored `closingNAV` field is the NAV before fee subtraction:
`totalShares * endPrice` (source line 176). -/
theorem dripStep_closingNAV (inputs : CalculationInputs) (year : ℕ)
    (s p : ℝ) :
    (dripStep inputs year s p).closingNAV =
      (dripStep inputs year s p).totalShares *
        (inputs.currentSharePrice *
          (1 + inputs.sharePriceGrowth / 100) ^ (year + 1)) := rfl

/-- The opening NAV of a non-initial year is the carried share count
times the year's start price. -/
theorem dripStep_openingNAV_succ (inputs : CalculationInputs) (year : ℕ)
    (s p : ℝ) :
    (dripStep inputs (year + 1) s p).openingNAV =
      s * (inputs.currentSharePrice *
        (1 + inputs.sharePriceGrowth / 100) ^ (year + 1)) := rfl

/-- Adjacent rows satisfy `next.openingNAV = prev.closingNAV` (the NAV
before fees), because the share count is carried over and the start
price of year `y+1` equals the end price of year `y`. -/
theorem chain_dripLoop (inputs : CalculationInputs) :
    ∀ (fuel year : ℕ) (s p : ℝ),
      List.Chain' (fun a b => b.openingNAV = a.closingNAV)
        (dripLoop inputs fuel year s p) := by
  intro fuel
  induction fuel with
  | zero => intro year s p; simp [dripLoop]
  | succ n ih =>
    intro year s p
    rw [dripLoop, List.chain'_cons']
    refine ⟨?_, ih _ _ _⟩
    intro b hb
    match n, hb with
    | m + 1, hb =>
      rw [dripLoop] at hb
      simp only [List.head?_cons, Option.mem_def, Option.some.injEq] at hb
      subst hb
      rw [dripStep_openingNAV_succ, dripStep_closingNAV]

end DripCalc

namespace DripCalc

/-- The repository's default SCHD-based parameter set
(`defaultInputs` in `src/components/DripCalculator.tsx`), restricted to
a one-year horizon and zero contributions — the concrete scenario of the
spec. -/
def sampleInputs : CalculationInputs :=
  { initialInvestment := 100000
    currentSharePrice := 26
    sharePriceGrowth := 7.5
    dividendYield := 3.6
    dividendGrowth := 11
    dividendTaxRate := 15
    expenseRatio := 0.06
    extraContributions := 0
    contributionFrequency := 12
    investmentPeriod := 1
    startingYear := 2026 }

end DripCalc

namespace DripCalc

/-- C1: for every input with a positive integer `investmentPeriod = N`,
`calculateDRIP` returns exactly `N` rows, whose `yearNumber` fields are
`1, 2, ..., N` in order (hence strictly increasing). -/
theorem c1_calculateDRIP_length_yearNumbers (inputs : CalculationInputs)
    (hN : 0 < inputs.investmentPeriod) :
    (calculateDRIP inputs).length = inputs.investmentPeriod ∧
    ∀ (i : ℕ) (hi : i < (calculateDRIP inputs).length),
      ((calculateDRIP inputs).get ⟨i, hi⟩).yearNumber = i + 1 := by
  refine ⟨length_calculateDRIP inputs, ?_⟩
  intro i hi
  have hi' : i < inputs.investmentPeriod := by
    rwa [length_calculateDRIP] at hi
  obtain ⟨s', p', hs⟩ := get_dripLoop inputs inputs.investmentPeriod 0
    (inputs.initialInvestment / inputs.currentSharePrice)
    inputs.initialInvestment i hi'
  calc ((calculateDRIP inputs).get ⟨i, hi⟩).yearNumber
      = (dripStep inputs (0 + i) s' p').yearNumber := by
        unfold calculateDRIP
        exact congrArg YearlyResult.yearNumber hs
    _ = i + 1 := by rw [dripStep_yearNumber]; omega

theorem dripStep_openingNAV_zero (inputs : CalculationInputs) (s p : ℝ) :
    (dripStep inputs 0 s p).openingNAV = s * inputs.currentSharePrice := rfl

/-- C4: in every period `t = 1..N` (position `i = t-1`), the gross
dividend is the opening NAV times the effective yield
`dividendYield * (1 + dividendGrowthRate)^(t-1)` (rates held in percent
in the source, hence the `/ 100` conversions). -/
theorem c4_effective_dividend_yield (inputs : CalculationInputs) :
    ∀ (i : ℕ) (hi : i < (calculateDRIP inputs).length),
      ((calculateDRIP inputs).get ⟨i, hi⟩).grossDividends =
        ((calculateDRIP inputs).get ⟨i, hi⟩).openingNAV *
          ((inputs.dividendYield / 100) *
            (1 + inputs.dividendGrowth / 100) ^ i) := by
  intro i hi
  have hi' : i < inputs.investmentPeriod := by
    rwa [length_calculateDRIP] at hi
  obtain ⟨s', p', hs⟩ := get_dripLoop inputs inputs.investmentPeriod 0
    (inputs.initialInvestment / inputs.currentSharePrice)
    inputs.initialInvestment i hi'
  have hg : (calculateDRIP inputs).get ⟨i, hi⟩ =
      dripStep inputs (0 + i) s' p' := by
    unfold calculateDRIP
    exact hs
  rw [hg, dripStep_grossDividends]
  norm_num

/-- Witness for C4 at the sample input, period 1. -/
theorem c4_witness :
    ((calculateDRIP sampleInputs).get
        ⟨0, by rw [length_calculateDRIP]; exact Nat.one_pos⟩).grossDividends =
      ((calculateDRIP sampleInputs).get
        ⟨0, by rw [length_calculateDRIP]; exact Nat.one_pos⟩).openingNAV *
        ((sampleInputs.dividendYield / 100) *
          (1 + sampleInputs.dividendGrowth / 100) ^ 0) :=
  c4_effective_dividend_yield sampleInputs 0 _

/-- C2 (amended): successive rows are continuous through the *pre-fee*
closing NAV: row `i+1`'s `openingNAV` equals row `i`'s `closingNAV`
field (`totalShares * endPrice`, before the fee subtraction), not its
`postTaxNAV`; for the first row the opening value is the initial
investment (the share count times the unchanged start price), provided
`currentSharePrice ≠ 0`. -/
theorem c2_amended_continuity (inputs : CalculationInputs)
    (hP : inputs.currentSharePrice ≠ 0) :
    (∀ h0 : 0 < (calculateDRIP inputs).length,
      ((calculateDRIP inputs).get ⟨0, h0⟩).openingNAV =
        inputs.initialInvestment) ∧
    ∀ (i : ℕ) (hi : i < (calculateDRIP inputs).length - 1),
      ((calculateDRIP inputs).get ⟨i + 1, by omega⟩).openingNAV =
        ((calculateDRIP inputs).get ⟨i, by omega⟩).closingNAV := by
  constructor
  · intro h0
    have hN : 0 < inputs.investmentPeriod := by
      rwa [length_calculateDRIP] at h0
    have hh := head_dripLoop inputs inputs.investmentPeriod 0
      (inputs.initialInvestment / inputs.currentSharePrice)
      inputs.initialInvestment hN
    have hg : (calculateDRIP inputs).get ⟨0, h0⟩ =
        dripStep inputs 0
          (inputs.initialInvestment / inputs.currentSharePrice)
          inputs.initialInvestment := by
      unfold calculateDRIP
      exact hh
    rw [hg, dripStep_openingNAV_zero, div_mul_cancel₀ _ hP]
  · intro i hi
    have hc := List.chain'_iff_get.mp
      (chain_dripLoop inputs inputs.investmentPeriod 0
        (inputs.initialInvestment / inputs.currentSharePrice)
        inputs.initialInvestment) i
      (by rw [length_dripLoop]; rw [calculateDRIP, length_dripLoop] at hi; exact hi)
    unfold calculateDRIP
    exact hc

/-- The sample input with a two-year horizon. -/
def sampleInputs2 : CalculationInputs :=
  { sampleInputs with investmentPeriod := 2 }

/-- Witness for C2 (amended) at the two-year sample input. -/
theorem c2_witness :
    ((calculateDRIP sampleInputs2).get
        ⟨0, by rw [length_calculateDRIP]; exact Nat.zero_lt_two⟩).openingNAV =
      sampleInputs2.initialInvestment ∧
    ((calculateDRIP sampleInputs2).get
        ⟨1, by rw [length_calculateDRIP]; exact Nat.one_lt_two⟩).openingNAV =
      ((calculateDRIP sampleInputs2).get
        ⟨0, by rw [length_calculateDRIP]; exact Nat.zero_lt_two⟩).closingNAV :=
  ⟨(c2_amended_continuity sampleInputs2 (by norm_num [sampleInputs2,
      sampleInputs])).1 _,
    (c2_amended_continuity sampleInputs2 (by norm_num [sampleInputs2,
      sampleInputs])).2 0
      (by rw [length_calculateDRIP]; exact Nat.zero_lt_one)⟩

/-- A parameter set with a 100% expense ratio and no growth or
dividends: fees are reported but not removed from the share count, so
the second year opens at the full pre-fee value. -/
def feeLeakInputs : CalculationInputs :=
  { initialInvestment := 100
    currentSharePrice := 1
    sharePriceGrowth := 0
    dividendYield := 0
    dividendGrowth := 0
    dividendTaxRate := 0
    expenseRatio := 100
    extraContributions := 0
    contributionFrequency := 0
    investmentPeriod := 2
    startingYear := 0 }

/-- Counterexample to C2 as stated: at `feeLeakInputs`, year 2 opens at
100 while year 1's `postTaxNAV` is 0 — the opening value does not equal
the previous post-fee closing value. -/
theorem c2_counterexample :
    ¬ (((calculateDRIP feeLeakInputs).get
          ⟨1, by simp [calculateDRIP, dripLoop]⟩).openingNAV =
        ((calculateDRIP feeLeakInputs).get
          ⟨0, by simp [calculateDRIP, dripLoop]⟩).postTaxNAV) := by
  norm_num [calculateDRIP, dripLoop, dripStep, feeLeakInputs, Real.sqrt_one]

/-- C3: the spec's concrete scenario (the source's SCHD defaults with a
one-year horizon): gross dividends 3600, tax 540, net 3060, fees 60,
and a closing `postTaxNAV` of
`(100000/26 + 3060/(26*sqrt 1.075)) * (26*1.075) - 60` — reinvestment
at the mid-year geometric price `26 * 1.075^0.5`. -/
theorem c3_concrete_scenario :
    ∃ r : YearlyResult, calculateDRIP sampleInputs = [r] ∧
      r.grossDividends = 3600 ∧
      r.dividendTaxPaid = 540 ∧
      r.netDividends = 3060 ∧
      r.feesPaid = 60 ∧
      r.postTaxNAV =
        (100000 / 26 + 3060 / (26 * Real.sqrt 1.075)) * (26 * 1.075) - 60 := by
  refine ⟨dripStep sampleInputs 0 (100000 / 26) 100000, rfl, ?_, ?_, ?_, ?_, ?_⟩
  · norm_num [dripStep, sampleInputs]
  · norm_num [dripStep, sampleInputs]
  · norm_num [dripStep, sampleInputs, max_def]
  · norm_num [dripStep, sampleInputs]
  · have hmid : (0:ℝ) < 26 * Real.sqrt (1 + 7.5 / 100) := by
      have : (0:ℝ) < Real.sqrt (1 + 7.5 / 100) :=
        Real.sqrt_pos.mpr (by norm_num)
      linarith
    have hdiv : (0:ℝ) ≤ 3060 / (26 * Real.sqrt (1 + 7.5 / 100)) :=
      le_of_lt (div_pos (by norm_num) hmid)
    norm_num [dripStep, sampleInputs, hmid, max_def] at hdiv ⊢
    intro h
    exfalso
    nlinarith [hdiv]

/-- If a pointwise property holds of every loop-body output, it holds
of every row the loop produces. -/
theorem forall_mem_dripLoop (inputs : CalculationInputs)
    (Q : YearlyResult → Prop)
    (hQ : ∀ (year : ℕ) (s p : ℝ), Q (dripStep inputs year s p)) :
    ∀ (fuel year : ℕ) (s p : ℝ),
      ∀ r ∈ dripLoop inputs fuel year s p, Q r := by
  intro fuel
  induction fuel with
  | zero => intro year s p r hr; simp [dripLoop] at hr
  | succ n ih =>
    intro year s p r hr
    simp only [dripLoop, List.mem_cons] at hr
    rcases hr with h | h
    · subst h; exact hQ _ _ _
    · exact ih _ _ _ r h

/-- With a zero unit price every start price, hence every mid-year
price, is zero, and the division guard short-circuits the purchase. -/
theorem dripStep_sharesPurchased_of_zero_price (inputs : CalculationInputs)
    (hP : inputs.currentSharePrice = 0) (year : ℕ) (s p : ℝ) :
    (dripStep inputs year s p).sharesPurchasedFromCash = 0 := by
  simp [dripStep, hP]

/-- C7: with a zero unit price, every row's `sharesPurchasedFromCash`
short-circuits to 0 (the `midYearPrice > 0` guard fails in every
period); no division by zero is performed. -/
theorem c7_division_guard (inputs : CalculationInputs)
    (hP : inputs.currentSharePrice = 0) :
    ∀ r ∈ calculateDRIP inputs, r.sharesPurchasedFromCash = 0 := by
  unfold calculateDRIP
  exact forall_mem_dripLoop inputs _
    (fun year s p => dripStep_sharesPurchased_of_zero_price inputs hP year s p)
    _ _ _ _

/-- The sample input with the unit price zeroed out. -/
def zeroPriceInputs : CalculationInputs :=
  { sampleInputs with currentSharePrice := 0 }

/-- Witness for C7 at a zero-price input with a one-year horizon. -/
theorem c7_witness :
    (dripStep zeroPriceInputs 0
        (zeroPriceInputs.initialInvestment / zeroPriceInputs.currentSharePrice)
        zeroPriceInputs.initialInvestment).sharesPurchasedFromCash = 0 :=
  c7_division_guard zeroPriceInputs rfl _ (by simp [calculateDRIP, dripLoop])

/-- C10: every row's `postTaxNAV` and `netDividends` are clamped at
zero by `Math.max(0, ·)` and are never negative, for every input. -/
theorem c10_floor_invariant (inputs : CalculationInputs) :
    ∀ r ∈ calculateDRIP inputs, 0 ≤ r.postTaxNAV ∧ 0 ≤ r.netDividends := by
  unfold calculateDRIP
  exact forall_mem_dripLoop inputs _
    (fun year s p => ⟨le_max_left 0 _, le_max_left 0 _⟩) _ _ _ _

/-- Witness for C10 at the sample input. -/
theorem c10_witness :
    0 ≤ (dripStep sampleInputs 0 (100000 / 26) 100000).postTaxNAV ∧
    0 ≤ (dripStep sampleInputs 0 (100000 / 26) 100000).netDividends :=
  c10_floor_invariant sampleInputs _ (by simp [calculateDRIP, dripLoop, sampleInputs])

/-- The sample input with a 100% dividend tax rate (the source holds
rates in percent, so `dividendTaxRate = 100` is 100%). -/
def highTaxInputs : CalculationInputs :=
  { sampleInputs with dividendTaxRate := 100 }

/-- Counterexample to C5 as stated: a 100% dividend tax rate passes
`inputsAreValid` (which only checks non-negativity) and the projection
is computed — one row is produced, not zero. -/
theorem c5_counterexample :
    inputsAreValid highTaxInputs ∧ (calculateDRIP highTaxInputs).length ≠ 0 := by
  constructor
  · refine ⟨?_, ?_, ?_, ?_, ?_, ?_, ?_, ?_, ?_⟩ <;>
      norm_num [highTaxInputs, sampleInputs]
  · rw [length_calculateDRIP]
    norm_num [highTaxInputs, sampleInputs]

/-- C5 (amended): a 100% dividend tax rate is *not* rejected; the
validation only requires non-negativity, and the engine silently
computes the projection with zero net dividends in every period. -/
theorem c5_amended_hundred_percent_tax (inputs : CalculationInputs)
    (hT : inputs.dividendTaxRate = 100) :
    ∀ r ∈ calculateDRIP inputs, r.netDividends = 0 := by
  unfold calculateDRIP
  refine forall_mem_dripLoop inputs _ (fun year s p => ?_) _ _ _ _
  simp [dripStep, hT]

/-- Witness for C5 (amended) at the 100%-tax sample input. -/
theorem c5_witness :
    (dripStep highTaxInputs 0 (100000 / 26) 100000).netDividends = 0 :=
  c5_amended_hundred_percent_tax highTaxInputs rfl _
    (by simp [calculateDRIP, dripLoop, highTaxInputs, sampleInputs])

/-- The sample input with a negative price-growth rate. -/
def negGrowthInputs : CalculationInputs :=
  { sampleInputs with sharePriceGrowth := -5 }

/-- Counterexample to C6 as stated: a negative price-growth rate is
rejected by `inputsAreValid` and clamped to 0 by the input handler —
it is not an accepted input. -/
theorem c6_counterexample :
    ¬ inputsAreValid negGrowthInputs ∧ handleInputChangeValue (-5) = 0 := by
  constructor
  · intro h
    exact absurd h.2.2.2.1 (by norm_num [negGrowthInputs, sampleInputs])
  · simp [handleInputChangeValue]

/-- C6 (amended): negative growth rates are *rejected*, not accepted:
any input with a negative `sharePriceGrowth` fails `inputsAreValid`,
and `handleInputChange` clamps any negative entered value to 0; the
dividend tax rate is constrained only to be ≥ 0 (no upper bound), so
rates of 100% and beyond are accepted. -/
theorem c6_amended_negative_rates_rejected :
    (∀ inputs : CalculationInputs,
      inputs.sharePriceGrowth < 0 → ¬ inputsAreValid inputs) ∧
    (∀ v : ℝ, v < 0 → handleInputChangeValue v = 0) ∧
    inputsAreValid highTaxInputs := by
  refine ⟨?_, ?_, ?_⟩
  · intro inputs hneg hvalid
    exact absurd hvalid.2.2.2.1 (not_le.mpr hneg)
  · intro v hv
    simp [handleInputChangeValue, hv]
  · refine ⟨?_, ?_, ?_, ?_, ?_, ?_, ?_, ?_, ?_⟩ <;>
      norm_num [highTaxInputs, sampleInputs]

/-- Witness for C6 (amended) at the negative-growth sample input. -/
theorem c6_witness :
    ¬ inputsAreValid negGrowthInputs ∧ handleInputChangeValue (-3) = 0 :=
  ⟨c6_amended_negative_rates_rejected.1 negGrowthInputs
      (by norm_num [negGrowthInputs, sampleInputs]),
    c6_amended_negative_rates_rejected.2.1 (-3) (by norm_num)⟩

theorem dripStep_totalShares_eq (inputs : CalculationInputs) (year : ℕ)
    (s p : ℝ) :
    (dripStep inputs year s p).totalShares =
      s + (dripStep inputs year s p).sharesPurchasedFromCash := rfl

/-- With non-negative contributions, the purchase from cash is
non-negative (the reinvested dividend is already clamped at zero). -/
theorem dripStep_sharesPurchased_nonneg (inputs : CalculationInputs)
    (hec : 0 ≤ inputs.extraContributions)
    (hcf : 0 ≤ inputs.contributionFrequency) (year : ℕ) (s p : ℝ) :
    0 ≤ (dripStep inputs year s p).sharesPurchasedFromCash := by
  simp only [dripStep]
  split <;> split <;>
    first
      | · rename_i h
          exact div_nonneg (add_nonneg (le_max_left _ _) (mul_nonneg hec hcf))
            h.le
      | · exact le_refl (0:ℝ)

/-- With a zero expense ratio the post-tax NAV is just the clamped
year-end NAV `totalShares * endPrice`. -/
theorem dripStep_postTaxNAV_of_no_fee (inputs : CalculationInputs)
    (hfee : inputs.expenseRatio = 0) (year : ℕ) (s p : ℝ) :
    (dripStep inputs year s p).postTaxNAV =
      max 0 ((dripStep inputs year s p).totalShares *
        (inputs.currentSharePrice *
          (1 + inputs.sharePriceGrowth / 100) ^ (year + 1))) := by
  simp [dripStep, hfee]

/-- Under the monotonicity hypotheses, consecutive rows have
non-decreasing `postTaxNAV`, starting from any non-negative share
count. -/
theorem chain_postTax_mono (inputs : CalculationInputs)
    (hP : 0 < inputs.currentSharePrice) (hg : 0 ≤ inputs.sharePriceGrowth)
    (hfee : inputs.expenseRatio = 0)
    (hec : 0 ≤ inputs.extraContributions)
    (hcf : 0 ≤ inputs.contributionFrequency) :
    ∀ (fuel year : ℕ) (s p : ℝ), 0 ≤ s →
      List.Chain' (fun a b => a.postTaxNAV ≤ b.postTaxNAV)
        (dripLoop inputs fuel year s p) := by
  intro fuel
  induction fuel with
  | zero => intro year s p _; simp [dripLoop]
  | succ n ih =>
    intro year s p hs
    have hshares : 0 ≤ (dripStep inputs year s p).totalShares := by
      rw [dripStep_totalShares_eq]
      exact add_nonneg hs (dripStep_sharesPurchased_nonneg inputs hec hcf year s p)
    rw [dripLoop, List.chain'_cons']
    refine ⟨?_, ih (year + 1) _ _ hshares⟩
    intro b hb
    match n, hb with
    | m + 1, hb =>
      rw [dripLoop] at hb
      simp only [List.head?_cons, Option.mem_def, Option.some.injEq] at hb
      subst hb
      rw [dripStep_postTaxNAV_of_no_fee inputs hfee year s p,
        dripStep_postTaxNAV_of_no_fee inputs hfee (year + 1) _ _]
      have hbase : (1:ℝ) ≤ 1 + inputs.sharePriceGrowth / 100 := by linarith
      have hpow : inputs.currentSharePrice *
            (1 + inputs.sharePriceGrowth / 100) ^ (year + 1) ≤
          inputs.currentSharePrice *
            (1 + inputs.sharePriceGrowth / 100) ^ (year + 1 + 1) :=
        mul_le_mul_of_nonneg_left
          (pow_le_pow_right₀ (by linarith) (by omega)) hP.le
      have hposp : 0 ≤ inputs.currentSharePrice *
          (1 + inputs.sharePriceGrowth / 100) ^ (year + 1) :=
        mul_nonneg hP.le (pow_nonneg (by linarith) _)
      have hshares2 : (dripStep inputs year s p).totalShares ≤
          (dripStep inputs (year + 1) (dripStep inputs year s p).totalShares
            (dripStep inputs year s p).postTaxNAV).totalShares := by
        rw [dripStep_totalShares_eq inputs (year + 1) _ _]
        exact le_add_of_nonneg_right
          (dripStep_sharesPurchased_nonneg inputs hec hcf _ _ _)
      exact max_le_max (le_refl 0)
        (mul_le_mul hshares2 hpow hposp (hshares.trans hshares2))

/-- C9: with zero tax and fees, all rates and contributions
non-negative, and a valid positive initial investment and unit price,
the reported year-end value `postTaxNAV` is non-decreasing from each
year to the next. -/
theorem c9_monotonicity (inputs : CalculationInputs)
    (hI : 0 < inputs.initialInvestment)
    (hP : 0 < inputs.currentSharePrice)
    (hg : 0 ≤ inputs.sharePriceGrowth)
    (hdy : 0 ≤ inputs.dividendYield)
    (hdg : 0 ≤ inputs.dividendGrowth)
    (htax : inputs.dividendTaxRate = 0)
    (hfee : inputs.expenseRatio = 0)
    (hec : 0 ≤ inputs.extraContributions)
    (hcf : 0 ≤ inputs.contributionFrequency) :
    ∀ (i : ℕ) (hi : i < (calculateDRIP inputs).length - 1),
      ((calculateDRIP inputs).get ⟨i, by omega⟩).postTaxNAV ≤
        ((calculateDRIP inputs).get ⟨i + 1, by omega⟩).postTaxNAV := by
  intro i hi
  have hc := List.chain'_iff_get.mp
    (chain_postTax_mono inputs hP hg hfee hec hcf
      inputs.investmentPeriod 0
      (inputs.initialInvestment / inputs.currentSharePrice)
      inputs.initialInvestment (div_nonneg hI.le hP.le)) i
    (by rw [length_dripLoop]; rw [calculateDRIP, length_dripLoop] at hi; exact hi)
  unfold calculateDRIP
  exact hc

/-- The monotonicity sample: two-year horizon, zero tax and fees. -/
def monoInputs : CalculationInputs :=
  { sampleInputs2 with dividendTaxRate := 0, expenseRatio := 0 }

/-- Witness for C9 at the two-year zero-tax zero-fee sample input. -/
theorem c9_witness :
    ((calculateDRIP monoInputs).get
        ⟨0, by rw [length_calculateDRIP]; exact Nat.zero_lt_two⟩).postTaxNAV ≤
      ((calculateDRIP monoInputs).get
        ⟨1, by rw [length_calculateDRIP]; exact Nat.one_lt_two⟩).postTaxNAV :=
  c9_monotonicity monoInputs
    (by norm_num [monoInputs, sampleInputs2, sampleInputs])
    (by norm_num [monoInputs, sampleInputs2, sampleInputs])
    (by norm_num [monoInputs, sampleInputs2, sampleInputs])
    (by norm_num [monoInputs, sampleInputs2, sampleInputs])
    (by norm_num [monoInputs, sampleInputs2, sampleInputs])
    (by norm_num [monoInputs, sampleInputs2, sampleInputs])
    (by norm_num [monoInputs, sampleInputs2, sampleInputs])
    (by norm_num [monoInputs, sampleInputs2, sampleInputs])
    (by norm_num [monoInputs, sampleInputs2, sampleInputs])
    0 (by rw [length_calculateDRIP]; norm_num [monoInputs, sampleInputs2])

/-- Witness for C1 at the sample input (horizon 1). -/
theorem c1_witness :
    (calculateDRIP sampleInputs).length = sampleInputs.investmentPeriod ∧
    ((calculateDRIP sampleInputs).get
        ⟨0, by rw [length_calculateDRIP]; exact Nat.one_pos⟩).yearNumber
      = 0 + 1 :=
  ⟨(c1_calculateDRIP_length_yearNumbers sampleInputs Nat.one_pos).1,
    (c1_calculateDRIP_length_yearNumbers sampleInputs Nat.one_pos).2 0 _⟩

end DripCalc

namespace PageCalc

structure CalculatorInputData where
  initialInvestment : ℝ
  annualContribution : ℝ
  yearsToHold : ℕ
  estimatedAnnualGrowth : ℝ
  dividendYield : ℝ
  dividendGrowthRate : ℝ
  dividendTaxRate : ℝ
  currentSharePrice : ℝ
  enableDRIP : Bool

structure YearlyResult where
  year : ℕ
  startBalance : ℤ
  sharePrice : ℝ
  totalShares : ℝ
  annualDividend : ℤ
  cumulativeDividends : ℤ
  totalContributions : ℤ
  endBalance : ℤ
  returnOnInvestment : ℤ

def jsRound (x : ℝ) : ℤ := ⌊x + 1 / 2⌋

structure LoopState where
  portfolioValue : ℝ
  cumulativeDividends : ℝ
  totalContributions : ℝ
  totalShares : ℝ
  sharePrice : ℝ
  currentDivYield : ℝ

def yearStep (data : CalculatorInputData) (year : ℕ) (st : LoopState) :
    YearlyResult × LoopState :=
  let growthRate := data.estimatedAnnualGrowth / 100
  let divGrowthRate := data.dividendGrowthRate / 100
  let taxFactor := 1 - data.dividendTaxRate / 100
  let startBalance := st.portfolioValue
  let annualDividend := startBalance * st.currentDivYield * taxFactor
  let cumulativeDividends := st.cumulativeDividends + annualDividend
  let totalContributions := st.totalContributions + data.annualContribution
  let endBalance :=
    if data.enableDRIP then
      (startBalance + annualDividend + data.annualContribution) * (1 + growthRate)
    else (startBalance + data.annualContribution) * (1 + growthRate)
  let totalShares :=
    if data.enableDRIP then
      st.totalShares + (annualDividend + data.annualContribution) / st.sharePrice
    else st.totalShares + data.annualContribution / st.sharePrice
  let roi := ((endBalance - startBalance - data.annualContribution) / startBalance) * 100
  let sharePrice := st.sharePrice * (1 + growthRate)
  let currentDivYield := st.currentDivYield * (1 + divGrowthRate)
  ({ year := year
     startBalance := jsRound startBalance
     sharePrice := sharePrice
     totalShares := totalShares
     annualDividend := jsRound annualDividend
     cumulativeDividends := jsRound cumulativeDividends
     totalContributions := jsRound totalContributions
     endBalance := jsRound endBalance
     returnOnInvestment := jsRound roi },
   { portfolioValue := endBalance
     cumulativeDividends := cumulativeDividends
     totalContributions := totalContributions
     totalShares := totalShares
     sharePrice := sharePrice
     currentDivYield := currentDivYield })

def calcLoop (data : CalculatorInputData) (fuel year : ℕ) (st : LoopState) :
    List YearlyResult :=
  match fuel with
  | 0 => []
  | fuel + 1 =>
    let rs := yearStep data year st
    rs.1 :: calcLoop data fuel (year + 1) rs.2

def calculateResults (data : CalculatorInputData) : List YearlyResult :=
  calcLoop data data.yearsToHold 1
    { portfolioValue := data.initialInvestment
      cumulativeDividends := 0
      totalContributions := data.initialInvestment
      totalShares := data.initialInvestment / data.currentSharePrice
      sharePrice := data.currentSharePrice
      currentDivYield := data.dividendYield / 100 }

theorem length_calcLoop (data : CalculatorInputData) :
    ∀ (fuel year : ℕ) (st : LoopState), (calcLoop data fuel year st).length = fuel := by
  intro fuel
  induction fuel with
  | zero => intro year st; rfl
  | succ n ih => intro year st; simp [calcLoop, ih]

theorem length_calculateResults (data : CalculatorInputData) :
    (calculateResults data).length = data.yearsToHold := by
  simp [calculateResults, length_calcLoop]

theorem map_balances_calcLoop (a b : CalculatorInputData)
    (ha : a.enableDRIP = false) (hb : b.enableDRIP = false)
    (hC : a.annualContribution = b.annualContribution)
    (hG : a.estimatedAnnualGrowth = b.estimatedAnnualGrowth) :
    ∀ (fuel year : ℕ) (stA stB : LoopState),
      stA.portfolioValue = stB.portfolioValue →
      (calcLoop a fuel year stA).map (fun r => (r.startBalance, r.endBalance)) =
        (calcLoop b fuel year stB).map (fun r => (r.startBalance, r.endBalance)) := by
  intro fuel
  induction fuel with
  | zero => intro year stA stB _; simp [calcLoop]
  | succ n ih =>
    intro year stA stB hpv
    have hend : (yearStep a year stA).2.portfolioValue =
        (yearStep b year stB).2.portfolioValue := by
      simp [yearStep, ha, hb, hpv, hC, hG]
    rw [calcLoop, calcLoop]
    simp only [List.map_cons]
    refine congrArg₂ List.cons ?_ (ih _ _ _ hend)
    simp [yearStep, ha, hb, hpv, hC, hG, jsRound]

/-- C8: noninterference with reinvestment disabled — two inputs that
agree on every field except `dividendYield` and `dividendGrowthRate`,
both with `enableDRIP = false`, produce runs of equal length whose
`startBalance` and `endBalance` agree in every period: dividends are
reported but excluded from the compounding of the balances. -/
theorem c8_no_reinvestment_isolation (a b : CalculatorInputData)
    (ha : a.enableDRIP = false) (hb : b.enableDRIP = false)
    (hI : a.initialInvestment = b.initialInvestment)
    (hC : a.annualContribution = b.annualContribution)
    (hY : a.yearsToHold = b.yearsToHold)
    (hG : a.estimatedAnnualGrowth = b.estimatedAnnualGrowth)
    (hT : a.dividendTaxRate = b.dividendTaxRate)
    (hS : a.currentSharePrice = b.currentSharePrice) :
    (calculateResults a).length = (calculateResults b).length ∧
    ∀ (i : ℕ) (hiA : i < (calculateResults a).length)
      (hiB : i < (calculateResults b).length),
      ((calculateResults a).get ⟨i, hiA⟩).startBalance =
        ((calculateResults b).get ⟨i, hiB⟩).startBalance ∧
      ((calculateResults a).get ⟨i, hiA⟩).endBalance =
        ((calculateResults b).get ⟨i, hiB⟩).endBalance := by
  have hmap := map_balances_calcLoop a b ha hb hC hG a.yearsToHold 1
    { portfolioValue := a.initialInvestment
      cumulativeDividends := 0
      totalContributions := a.initialInvestment
      totalShares := a.initialInvestment / a.currentSharePrice
      sharePrice := a.currentSharePrice
      currentDivYield := a.dividendYield / 100 }
    { portfolioValue := b.initialInvestment
      cumulativeDividends := 0
      totalContributions := b.initialInvestment
      totalShares := b.initialInvestment / b.currentSharePrice
      sharePrice := b.currentSharePrice
      currentDivYield := b.dividendYield / 100 }
    hI
  have hmap' : (calculateResults a).map (fun r => (r.startBalance, r.endBalance)) =
      (calculateResults b).map (fun r => (r.startBalance, r.endBalance)) := by
    rw [calculateResults, calculateResults, ← hY]
    exact hmap
  have hlen : (calculateResults a).length = (calculateResults b).length := by
    have := congrArg List.length hmap'
    simpa using this
  refine ⟨hlen, ?_⟩
  intro i hiA hiB
  have hq : ((calculateResults a).map
        (fun r => (r.startBalance, r.endBalance)))[i]? =
      ((calculateResults b).map
        (fun r => (r.startBalance, r.endBalance)))[i]? := by
    rw [hmap']
  rw [List.getElem?_map, List.getElem?_map] at hq
  rw [List.getElem?_eq_getElem hiA, List.getElem?_eq_getElem hiB] at hq
  simp only [Option.map_some', Option.some.injEq, Prod.mk.injEq] at hq
  rw [List.get_eq_getElem, List.get_eq_getElem]
  exact hq

/-- The `page.tsx` defaults with a one-year horizon and reinvestment
disabled. -/
def accA : CalculatorInputData :=
  { initialInvestment := 1000
    annualContribution := 5000
    yearsToHold := 1
    estimatedAnnualGrowth := 7.5
    dividendYield := 3.5
    dividendGrowthRate := 11.18
    dividendTaxRate := 15
    currentSharePrice := 28
    enableDRIP := false }

/-- `accA` with a different dividend yield and dividend growth rate. -/
def accB : CalculatorInputData :=
  { accA with dividendYield := 7, dividendGrowthRate := 2 }

/-- Witness for C8 at the two concrete no-reinvestment inputs. -/
theorem c8_witness :
    (calculateResults accA).length = (calculateResults accB).length ∧
    (((calculateResults accA).get
        ⟨0, by rw [length_calculateResults]; exact Nat.one_pos⟩).startBalance =
      ((calculateResults accB).get
        ⟨0, by rw [length_calculateResults]; exact Nat.one_pos⟩).startBalance ∧
     ((calculateResults accA).get
        ⟨0, by rw [length_calculateResults]; exact Nat.one_pos⟩).endBalance =
      ((calculateResults accB).get
        ⟨0, by rw [length_calculateResults]; exact Nat.one_pos⟩).endBalance) :=
  ⟨(c8_no_reinvestment_isolation accA accB rfl rfl rfl rfl rfl rfl rfl rfl).1,
    (c8_no_reinvestment_isolation accA accB rfl rfl rfl rfl rfl rfl rfl rfl).2
      0 _ _⟩

end PageCalc
